import Mathlib

/-!
Verification of the token-verified request gateway and data-access layer of
the fastapi-vue3-template backend.

The definitions below are a shallow embedding of
`backend/app/utils/supabase_utils.py` and `backend/app/main.py`.

Naming of error kinds follows the Python exception classes:
`SupaErr.supabaseError` is the base class `SupabaseError` (raised for
missing configuration, i.e. the spec's `ConfigurationError`),
`SupaErr.supabaseAuthError` is `SupabaseAuthError` (the spec's `AuthError`),
`SupaErr.supabaseDBError` is `SupabaseDBError` (the spec's `DataAccessError`),
`SupaErr.supabaseStorageError` is `SupabaseStorageError` (the spec's
`StorageAccessError`).
-/

namespace SupabaseUtils

/-- The exception taxonomy of `supabase_utils.py`.  Each constructor is one
of the exception classes defined at the top of the module, carrying its
message string. -/
inductive SupaErr where
  | supabaseError (msg : String)
  | supabaseAuthError (msg : String)
  | supabaseDBError (msg : String)
  | supabaseStorageError (msg : String)
deriving DecidableEq, Repr

/-- Whether an error is the `SupabaseAuthError` kind (the spec's `AuthError`). -/
def SupaErr.isAuthErr : SupaErr → Bool
  | .supabaseAuthError _ => true
  | _ => false

/-- Whether an error is the plain `SupabaseError` kind, which the code raises
for missing configuration (the spec's `ConfigurationError`). -/
def SupaErr.isConfigErr : SupaErr → Bool
  | .supabaseError _ => true
  | _ => false

/-- Whether an error is the `SupabaseDBError` kind (the spec's `DataAccessError`). -/
def SupaErr.isDBErr : SupaErr → Bool
  | .supabaseDBError _ => true
  | _ => false

/-- A decoded JWT payload.  The code reads three claims from it:
`exp` (seconds since the epoch, absent if the token carries no expiry),
`sub` (subject identifier) and `user_metadata`.  Metadata is kept opaque
as a string. -/
structure Payload where
  exp : Option Nat
  sub : Option String
  user_metadata : Option String
deriving DecidableEq, Repr

/-- A bearer token as the external JWT library classifies it: either
structurally malformed, or a well-formed token signed with some key,
carrying an audience claim and a payload. -/
inductive Token where
  | malformed
  | signed (key : String) (aud : String) (payload : Payload)
deriving DecidableEq, Repr

/-- Model of the external `jwt.decode(token, key, algorithms=["HS256"],
audience="authenticated")` call as configured at the call site in
`decode_supabase_token`: a malformed token fails structurally, a token
signed with a different key fails signature verification, a token whose
audience claim is not `"authenticated"` fails audience validation, and —
because python-jose validates claims by default (`verify_exp` on, leeway
0) — a token whose `exp` claim is before the current time fails with
`ExpiredSignatureError`; otherwise the payload is returned.  Every error
is a `JWTError` carrying its message (discarded by the caller).  `now` is
the integer-second clock reading the library takes at decode time. -/
def jwtDecode (key : String) (now : Nat) : Token → Except String Payload
  | .malformed => .error "Not enough segments"
  | .signed k aud p =>
    if k ≠ key then .error "Signature verification failed"
    else if aud ≠ "authenticated" then .error "Invalid audience"
    else
      match p.exp with
      | some e => if e < now then .error "Signature has expired" else .ok p
      | none => .ok p

/-- `SupabaseAuth.decode_supabase_token`.  If the configured signing secret
is empty (`if not jwt_secret`), raises `SupabaseAuthError` with the
configuration message; otherwise decodes, turning any `JWTError`
(including the expired-signature one) into
`SupabaseAuthError("Invalid token")`. -/
def decode_supabase_token (secret : String) (now : Nat) (token : Token) :
    Except SupaErr Payload :=
  if secret = "" then
    .error (.supabaseAuthError "SUPABASE_JWT_SECRET must be set in environment variables")
  else
    match jwtDecode secret now token with
    | .ok p => .ok p
    | .error _ => .error (.supabaseAuthError "Invalid token")

/-- `SupabaseAuth.is_token_expired`.  Decodes the token; on success reads
`exp` and, when it is truthy (`if exp:` — present and nonzero), compares
`datetime.fromtimestamp(exp) < datetime.now()`; a missing or zero `exp`
yields `False`.  A `SupabaseAuthError` (or `ValueError`) from decoding is
caught and yields `False`.  `now` is the current clock reading in seconds
since the epoch, shared with the decode call it makes. -/
def is_token_expired (secret : String) (now : Nat) (token : Token) : Bool :=
  match decode_supabase_token secret now token with
  | .ok payload =>
    match payload.exp with
    | some e => if e ≠ 0 then decide (e < now) else false
    | none => false
  | .error _ => false

/-- Python truthiness of an optional integer argument (`if limit:`):
`None` and `0` are falsy. -/
def pyTruthy : Option Nat → Bool
  | none => false
  | some n => n ≠ 0

/-- Python `x or d` for an optional integer `x` (`limit or 10`): the value
when truthy, otherwise the default. -/
def pyOr (x : Option Nat) (d : Nat) : Nat :=
  match x with
  | some n => if n ≠ 0 then n else d
  | none => d

/-- Python truthiness of an optional string argument (`if order_by:`):
`None` and the empty string are falsy. -/
def pyTruthyStr : Option String → Bool
  | none => false
  | some s => s ≠ ""

/-- The query a `SupabaseDB.select` call builds before executing it: the
table, the projected columns, the equality predicates applied by `query.eq`
in mapping iteration order, the `order` clause, the `limit` clause and the
`range` clause (inclusive bounds), each present exactly when the code
applied it. -/
structure Query where
  table : String
  columns : String
  eqFilters : List (String × String)
  orderBy : Option String
  limitClause : Option Nat
  rangeClause : Option (Nat × Nat)
deriving DecidableEq, Repr

/-- The query-building part of `SupabaseDB.select` (lines 234-249): start
from `table(table).select(columns)`, apply one `eq` per filter entry, apply
`order` when `order_by` is truthy, apply `limit(limit)` when `limit` is
truthy, and apply `range(offset, offset + (limit or 10) - 1)` when `offset`
is truthy. -/
def buildSelectQuery (table columns : String) (filters : List (String × String))
    (order_by : Option String) (limit offset : Option Nat) : Query :=
  { table := table
    columns := columns
    eqFilters := filters
    orderBy := if pyTruthyStr order_by then order_by else none
    limitClause := if pyTruthy limit then limit else none
    rangeClause :=
      match offset with
      | some o => if o ≠ 0 then some (o, o + pyOr limit 10 - 1) else none
      | none => none }

/-- One row of a result set: a mapping from column name to value. -/
def Row := List (String × String)

/-- What the external backend reports for an executed query: a row set, an
`APIError`, or any other exception. -/
inductive ExecResult where
  | rows (data : List Row)
  | apiError (msg : String)
  | otherError (msg : String)

/-- `SupabaseDB.select`: build the query, execute it against the backend,
and translate failures — an `APIError` becomes
`SupabaseDBError("Failed to select from {table}")`, any other exception
becomes `SupabaseDBError("Unexpected error")`.  The backend is modelled as
a function from the built query to its outcome. -/
def select (backend : Query → ExecResult) (table columns : String)
    (filters : List (String × String)) (order_by : Option String)
    (limit offset : Option Nat) : Except SupaErr (List Row) :=
  match backend (buildSelectQuery table columns filters order_by limit offset) with
  | .rows data => .ok data
  | .apiError _ => .error (.supabaseDBError ("Failed to select from " ++ table))
  | .otherError _ => .error (.supabaseDBError "Unexpected error")

/-- `SupabaseDB.check_user_exists`: calls
`select("users", filters={"id": user_id}, limit=1)` and returns whether the
result is non-empty; a `SupabaseDBError` is caught and yields `False`.
Any other exception would propagate (no other kind can occur). -/
def check_user_exists (backend : Query → ExecResult) (user_id : String) :
    Except SupaErr Bool :=
  match select backend "users" "*" [("id", user_id)] none (some 1) none with
  | .ok result => .ok (decide (0 < result.length))
  | .error (.supabaseDBError _) => .ok false
  | .error e => .error e

/-- The configuration values `settings` supplies (from `app/core/config.py`,
defaulting to the empty string when the environment variable is absent). -/
structure Settings where
  supabase_url : String
  supabase_key : String
  supabase_jwt_secret : String
deriving DecidableEq, Repr

/-- A constructed Supabase client: `create_client(url, key, options)` with
`ClientOptions(auto_refresh_token=True, persist_session=True)`. -/
structure Client where
  url : String
  key : String
  auto_refresh_token : Bool
  persist_session : Bool
deriving DecidableEq, Repr

/-- A constructed S3 client as `get_s3_client` builds it: the Supabase
S3-compatible endpoint, both credentials set to the API key, region
`"auto"`, path-style addressing. -/
structure S3Client where
  endpoint_url : String
  aws_access_key_id : String
  aws_secret_access_key : String
  region_name : String
  addressing_style : String
deriving DecidableEq, Repr

/-- The process-wide `functools.lru_cache` state of the two client getters:
the cached return value of each, when a call has already succeeded.
(`lru_cache` does not cache a call that raises.) -/
structure ClientCache where
  supabaseClient : Option Client
  s3Client : Option S3Client
deriving DecidableEq, Repr

/-- `get_supabase_client` under `@lru_cache`: a cached instance is returned
as is; otherwise, if either `settings.supabase_url` or
`settings.supabase_key` is empty (`if not url or not key`), raise
`SupabaseError` without caching anything; otherwise construct the client,
cache it and return it. -/
def get_supabase_client (cfg : Settings) (cache : ClientCache) :
    Except SupaErr Client × ClientCache :=
  match cache.supabaseClient with
  | some c => (.ok c, cache)
  | none =>
    if cfg.supabase_url = "" ∨ cfg.supabase_key = "" then
      (.error (.supabaseError "SUPABASE_URL and SUPABASE_KEY must be set in environment variables"),
       cache)
    else
      let c : Client := ⟨cfg.supabase_url, cfg.supabase_key, true, true⟩
      (.ok c, ⟨some c, cache.s3Client⟩)

/-- `get_s3_client` under `@lru_cache`: a cached instance is returned as
is; otherwise construct the client (no configuration check) from the
Supabase settings, cache it and return it. -/
def get_s3_client (cfg : Settings) (cache : ClientCache) : S3Client × ClientCache :=
  match cache.s3Client with
  | some c => (c, cache)
  | none =>
    let c : S3Client :=
      ⟨cfg.supabase_url ++ "/storage/v1/s3", cfg.supabase_key, cfg.supabase_key, "auto", "path"⟩
    (c, ⟨cache.supabaseClient, some c⟩)

/-- The options dict `storage3.types.ListBucketFilesOptions` built by
`SupabaseStorage.list_files`: each key is present exactly when the code
set it. -/
structure ListBucketFilesOptions where
  limit : Option Nat
  offset : Option Nat
deriving DecidableEq, Repr

/-- The options-building part of `SupabaseStorage.list_files` (lines
540-544): start from an empty options dict and set `limit` / `offset` only
when the corresponding argument is truthy. -/
def buildListOptions (limit offset : Option Nat) : ListBucketFilesOptions :=
  ListBucketFilesOptions.mk
    (if pyTruthy limit then limit else none)
    (if pyTruthy offset then offset else none)

/-- The argument `list_files` passes to the backend `list` call:
`options if options else None` — an options dict with no keys set is falsy
and is replaced by `None`. -/
def listOptionsArg (limit offset : Option Nat) : Option ListBucketFilesOptions :=
  let options := buildListOptions limit offset
  if options = ListBucketFilesOptions.mk none none then none else some options

/-- A broken-down clock reading as `datetime.now()` returns it, for
formatting with `strftime`. -/
structure Timestamp where
  year : Nat
  month : Nat
  day : Nat
  hour : Nat
  minute : Nat
  second : Nat
deriving DecidableEq, Repr

/-- One decimal digit character (callers pass a value below ten). -/
def decDigitChar (d : Nat) : Char := Char.ofNat (48 + d)

/-- One lowercase hexadecimal digit character, as the canonical string form
of a UUID uses (callers pass a value below sixteen). -/
def hexDigitChar (d : Nat) : Char :=
  if d < 10 then Char.ofNat (48 + d) else Char.ofNat (87 + d)

/-- A number printed as exactly two decimal digits, zero-padded (`%m`,
`%d`, `%H`, `%M`, `%S`). -/
def pad2 (n : Nat) : String :=
  String.mk [decDigitChar (n / 10 % 10), decDigitChar (n % 10)]

/-- A number printed as exactly four decimal digits, zero-padded (`%Y`,
the year with century; `datetime` years never exceed 9999). -/
def pad4 (n : Nat) : String :=
  String.mk [decDigitChar (n / 1000 % 10), decDigitChar (n / 100 % 10),
             decDigitChar (n / 10 % 10), decDigitChar (n % 10)]

/-- `datetime.now().strftime("%Y%m%d_%H%M%S")`. -/
def formatTimestamp (t : Timestamp) : String :=
  pad4 t.year ++ pad2 t.month ++ pad2 t.day ++ "_" ++
    pad2 t.hour ++ pad2 t.minute ++ pad2 t.second

/-- `str(uuid.uuid4())[:8]`: the first eight characters of the canonical
UUID string are the `time_low` field — thirty-two random bits printed as
eight lowercase hexadecimal digits (the version and variant bits of a
version-4 UUID lie outside this prefix).  `r` is the random draw. -/
def uuid4Prefix8 (r : Nat) : String :=
  String.mk ((List.range 8).map fun i => hexDigitChar (r / 16 ^ (7 - i) % 16))

/-- `pathlib` `PurePosixPath.name`: the final path component, after
splitting on `/` and discarding empty and single-dot components. -/
def pathName (s : String) : String :=
  (((s.splitOn "/").filter fun p => p ≠ "" ∧ p ≠ ".").getLastD "")

/-- The index of the last occurrence of a character in a list, if any
(Python `str.rfind`, with `None` for "not found"). -/
def lastIdxOf (c : Char) : List Char → Option Nat
  | [] => none
  | a :: as =>
    match lastIdxOf c as with
    | some i => some (i + 1)
    | none => if a = c then some 0 else none

/-- `pathlib` `PurePath.suffix`: the part of the name from its last dot to
its end, provided that dot is neither the first nor the last character of
the name; otherwise the empty string. -/
def pathSuffix (s : String) : String :=
  let name := (pathName s).toList
  match lastIdxOf '.' name with
  | some i => if 0 < i ∧ i + 1 < name.length then String.mk (name.drop i) else ""
  | none => ""

/-- `SupabaseStorage.generate_filename`: the current clock reading formatted
as `%Y%m%d_%H%M%S`, an underscore, the first eight characters of a fresh
random UUID, and `Path(original_filename).suffix`. -/
def generate_filename (now : Timestamp) (r : Nat) (original_filename : String) : String :=
  formatTimestamp now ++ "_" ++ uuid4Prefix8 r ++ pathSuffix original_filename

end SupabaseUtils

namespace Main

open SupabaseUtils

/-- The allow-list `WHITE_LIST` of `main.py`. -/
def WHITE_LIST : List String := ["/api/user/login", "/docs", "/openapi.json", "/api/health"]

/-- The outcome of `verify_token` in `main.py`: the request proceeds with no
identity resolution (allow-listed path, the function returns before touching
request state), proceeds with resolved identity attached to request state,
is rejected with an `HTTPException`, or an exception escapes the gate
uncaught. -/
inductive GateOutcome where
  | allowedNoAuth
  | allowedAuth (user : Option String) (userId : Option String)
  | httpException (status : Nat) (detail : String)
  | uncaught (e : SupaErr)
deriving DecidableEq, Repr

/-- `verify_token` of `main.py`: accept allow-listed paths unconditionally;
reject with `HTTPException(401, "Unauthorized")` when no credential is
presented or when `is_token_expired` reports the token expired; otherwise
call `decode_supabase_token` (outside any exception handler — its errors
escape uncaught) and attach `user_metadata` and `sub` to the request
state. -/
def verify_token (secret : String) (now : Nat) (path : String)
    (cred : Option Token) : GateOutcome :=
  if path ∈ WHITE_LIST then .allowedNoAuth
  else
    match cred with
    | none => .httpException 401 "Unauthorized"
    | some token =>
      if is_token_expired secret now token then .httpException 401 "Unauthorized"
      else
        match decode_supabase_token secret now token with
        | .error e => .uncaught e
        | .ok payload => .allowedAuth payload.user_metadata payload.sub

end Main

namespace SupabaseUtils

/-- Whether a decimal-digit character (`[0-9]`). -/
def isDigitChar (c : Char) : Bool := 48 ≤ c.toNat && c.toNat ≤ 57

/-- Whether a lowercase hexadecimal-digit character (`[0-9a-f]`). -/
def isLowerHexChar (c : Char) : Bool :=
  isDigitChar c || (97 ≤ c.toNat && c.toNat ≤ 102)

/-- Whether every character of a string is a decimal digit. -/
def allDigits (s : String) : Bool := s.data.all isDigitChar

/-- Whether every character of a string is a lowercase hexadecimal digit. -/
def allLowerHex (s : String) : Bool := s.data.all isLowerHexChar

/-- Whether a decode result is the configuration-error kind. -/
def decodeErrIsConfig (r : Except SupaErr Payload) : Bool :=
  match r with
  | .error e => e.isConfigErr
  | .ok _ => false

/-- Whether a decode result is the auth-error kind. -/
def decodeErrIsAuth (r : Except SupaErr Payload) : Bool :=
  match r with
  | .error e => e.isAuthErr
  | .ok _ => false

theorem decode_error_isAuthErr (secret : String) (now : Nat) (token : Token) (e : SupaErr)
    (h : decode_supabase_token secret now token = Except.error e) : e.isAuthErr = true := by
  unfold decode_supabase_token at h
  split at h
  · injection h with h1
    subst h1
    rfl
  · cases hj : jwtDecode secret now token with
    | ok p => rw [hj] at h; cases h
    | error m =>
      rw [hj] at h
      injection h with h1
      subst h1
      rfl

theorem jwtDecode_ok_exp (key : String) (now : Nat) (t : Token) (p : Payload)
    (h : jwtDecode key now t = Except.ok p) :
    ∀ e, p.exp = some e → now ≤ e := by
  intro e he
  cases t with
  | malformed => cases h
  | signed k aud q =>
    simp only [jwtDecode] at h
    by_cases hk : k ≠ key
    · rw [if_pos hk] at h
      cases h
    · rw [if_neg hk] at h
      by_cases ha : aud ≠ "authenticated"
      · rw [if_pos ha] at h
        cases h
      · rw [if_neg ha] at h
        cases hq : q.exp with
        | some e0 =>
          simp only [hq] at h
          by_cases hlt : e0 < now
          · rw [if_pos hlt] at h
            cases h
          · rw [if_neg hlt] at h
            injection h with h1
            subst h1
            rw [hq] at he
            injection he with he2
            subst he2
            omega
        | none =>
          simp only [hq] at h
          injection h with h1
          subst h1
          rw [hq] at he
          cases he

theorem decode_ok_exp (secret : String) (now : Nat) (t : Token) (p : Payload)
    (h : decode_supabase_token secret now t = Except.ok p) :
    ∀ e, p.exp = some e → now ≤ e := by
  unfold decode_supabase_token at h
  split at h
  · cases h
  · cases hj : jwtDecode secret now t with
    | ok q =>
      rw [hj] at h
      injection h with h1
      subst h1
      exact jwtDecode_ok_exp secret now t _ hj
    | error m => rw [hj] at h; cases h

theorem is_token_expired_false (secret : String) (now : Nat) (token : Token) :
    is_token_expired secret now token = false := by
  cases hd : decode_supabase_token secret now token with
  | error e => simp [is_token_expired, hd]
  | ok p =>
    cases hp : p.exp with
    | none => simp [is_token_expired, hd, hp]
    | some e =>
      have hle := decode_ok_exp secret now token p hd e hp
      by_cases h0 : e = 0
      · simp [is_token_expired, hd, hp, h0]
      · simp [is_token_expired, hd, hp, h0]
        omega

theorem select_error_isDBErr (backend : Query → ExecResult) (table columns : String)
    (filters : List (String × String)) (order_by : Option String)
    (limit offset : Option Nat) (e : SupaErr)
    (h : select backend table columns filters order_by limit offset = Except.error e) :
    e.isDBErr = true := by
  unfold select at h
  cases hb : backend (buildSelectQuery table columns filters order_by limit offset) with
  | rows data => rw [hb] at h; cases h
  | apiError m =>
    rw [hb] at h
    injection h with h1
    subst h1
    rfl
  | otherError m =>
    rw [hb] at h
    injection h with h1
    subst h1
    rfl

theorem pad2_length (n : Nat) : (pad2 n).length = 2 := rfl

theorem pad4_length (n : Nat) : (pad4 n).length = 4 := rfl

theorem isDigitChar_decDigitChar (d : Nat) (h : d < 10) :
    isDigitChar (decDigitChar d) = true := by
  interval_cases d <;> decide

theorem isLowerHexChar_hexDigitChar (d : Nat) (h : d < 16) :
    isLowerHexChar (hexDigitChar d) = true := by
  interval_cases d <;> decide

theorem allDigits_pad2 (n : Nat) : allDigits (pad2 n) = true := by
  simp only [allDigits, pad2, List.all_cons, List.all_nil, Bool.and_true, Bool.and_eq_true]
  exact ⟨isDigitChar_decDigitChar _ (Nat.mod_lt _ (by decide)),
         isDigitChar_decDigitChar _ (Nat.mod_lt _ (by decide))⟩

theorem allDigits_pad4 (n : Nat) : allDigits (pad4 n) = true := by
  simp only [allDigits, pad4, List.all_cons, List.all_nil, Bool.and_true, Bool.and_eq_true]
  exact ⟨isDigitChar_decDigitChar _ (Nat.mod_lt _ (by decide)),
         isDigitChar_decDigitChar _ (Nat.mod_lt _ (by decide)),
         isDigitChar_decDigitChar _ (Nat.mod_lt _ (by decide)),
         isDigitChar_decDigitChar _ (Nat.mod_lt _ (by decide))⟩

theorem allDigits_append (s t : String) :
    allDigits (s ++ t) = (allDigits s && allDigits t) := by
  simp [allDigits, String.data_append, List.all_append]

theorem uuid4Prefix8_length (r : Nat) : (uuid4Prefix8 r).length = 8 := rfl

theorem allLowerHex_uuid4Prefix8 (r : Nat) : allLowerHex (uuid4Prefix8 r) = true := by
  have hr : List.range 8 = [0, 1, 2, 3, 4, 5, 6, 7] := rfl
  simp only [allLowerHex, uuid4Prefix8, hr, List.map_cons, List.map_nil,
    List.all_cons, List.all_nil, Bool.and_true, Bool.and_eq_true]
  refine ⟨?_, ?_, ?_, ?_, ?_, ?_, ?_, ?_⟩ <;>
    exact isLowerHexChar_hexDigitChar _ (Nat.mod_lt _ (by decide))

end SupabaseUtils

namespace Claims

open SupabaseUtils Main

/-- C4: for every select call with a truthy offset and no limit, the built
query carries a range clause of exactly `(offset, offset + 9)` — ten rows,
computed with the default page size of 10 — and no limit clause; moreover,
with any limit argument a truthy offset always yields a bounded range
clause `(offset, offset + (limit or 10) - 1)`. -/
theorem c4_select_offset_defaults_page_size (table columns : String)
    (filters : List (String × String)) (order_by : Option String)
    (o : Nat) (ho : o ≠ 0) :
    (buildSelectQuery table columns filters order_by none (some o)).rangeClause
        = some (o, o + 9)
    ∧ (buildSelectQuery table columns filters order_by none (some o)).limitClause = none
    ∧ ∀ limit : Option Nat,
        (buildSelectQuery table columns filters order_by limit (some o)).rangeClause
          = some (o, o + pyOr limit 10 - 1) := by
  refine ⟨?_, ?_, ?_⟩
  · simp [buildSelectQuery, pyOr, ho]
  · simp [buildSelectQuery, pyTruthy]
  · intro limit
    simp [buildSelectQuery, ho]

/-- Witness for C4 at the spec's own example: `offset=5` and no `limit`
constrains the range to rows 5 through 14. -/
theorem c4_witness :
    (buildSelectQuery "users" "*" [] none none (some 5)).rangeClause = some (5, 14) :=
  (c4_select_offset_defaults_page_size "users" "*" [] none 5 (by decide)).1

/-- C6: for every inbound request, an allow-listed path is accepted
unconditionally with no credential required and no identity resolution,
and a non-allow-listed path with no credential is rejected with
`HTTPException(401, "Unauthorized")` before any handler runs. -/
theorem c6_gate_allowlist_and_missing_credential (secret : String) (now : Nat)
    (path : String) (cred : Option Token) :
    (path ∈ WHITE_LIST → verify_token secret now path cred = .allowedNoAuth)
    ∧ (path ∉ WHITE_LIST → cred = none →
        verify_token secret now path cred = .httpException 401 "Unauthorized") := by
  constructor
  · intro h
    simp [verify_token, h]
  · intro h hc
    subst hc
    simp [verify_token, h]

/-- Witness for C6: the allow-listed path `/docs` is accepted with no
credential, and the non-allow-listed path `/api/user/info` with no
credential is rejected with a 401. -/
theorem c6_witness :
    verify_token "s" 0 "/docs" none = .allowedNoAuth
    ∧ verify_token "s" 0 "/api/user/info" none = .httpException 401 "Unauthorized" :=
  ⟨(c6_gate_allowlist_and_missing_credential "s" 0 "/docs" none).1 (by decide),
   (c6_gate_allowlist_and_missing_credential "s" 0 "/api/user/info" none).2 (by decide) rfl⟩

/-- C10: an explicitly supplied `limit=0` or `offset=0` is treated exactly
as if it were absent: the built select query is identical (so `offset=0`
yields no range clause and `limit=0` no limit clause), and the options
built by `list_files` are identical (the keys are omitted). -/
theorem c10_zero_pagination_treated_as_absent (table columns : String)
    (filters : List (String × String)) (order_by : Option String)
    (limit offset : Option Nat) :
    buildSelectQuery table columns filters order_by limit (some 0)
        = buildSelectQuery table columns filters order_by limit none
    ∧ buildSelectQuery table columns filters order_by (some 0) offset
        = buildSelectQuery table columns filters order_by none offset
    ∧ buildListOptions (some 0) offset = buildListOptions none offset
    ∧ buildListOptions limit (some 0) = buildListOptions limit none := by
  refine ⟨?_, ?_, ?_, ?_⟩
  · simp [buildSelectQuery]
  · cases offset with
    | none => simp [buildSelectQuery, pyTruthy, pyOr]
    | some o => simp [buildSelectQuery, pyTruthy, pyOr]
  · simp [buildListOptions, pyTruthy]
  · simp [buildListOptions, pyTruthy]

/-- C1 counterexample: a malformed token cannot be decoded —
`decode_supabase_token` fails with `SupabaseAuthError` — yet
`is_token_expired` on that same token returns `false`, not `true` as the
claim states. -/
theorem c1_counterexample :
    decode_supabase_token "secret" 100 Token.malformed
        = Except.error (.supabaseAuthError "Invalid token")
    ∧ is_token_expired "secret" 100 Token.malformed = false := by
  constructor
  · rfl
  · rfl

/-- C1 amended: for every token that cannot be decoded, `decode` raises
`AuthError`, and `is_expired` on that same token returns `false` — decode
failure is treated as not-expired (fail-open at `is_token_expired`; the
gate instead surfaces the decode error when it decodes the token itself). -/
theorem c1_undecodable_token_fail_open (secret : String) (now : Nat) (token : Token)
    (e : SupaErr) (h : decode_supabase_token secret now token = Except.error e) :
    e.isAuthErr = true ∧ is_token_expired secret now token = false := by
  refine ⟨decode_error_isAuthErr secret now token e h, ?_⟩
  simp [is_token_expired, h]

/-- Witness for C1 at a malformed token. -/
theorem c1_witness :
    (SupaErr.supabaseAuthError "Invalid token").isAuthErr = true
    ∧ is_token_expired "s" 10 Token.malformed = false :=
  c1_undecodable_token_fail_open "s" 10 Token.malformed
    (.supabaseAuthError "Invalid token") rfl

/-- C2 counterexample: on a non-allow-listed path, a bearer credential whose
token cannot be decoded makes the gate let the `SupabaseAuthError` from
`decode_supabase_token` escape uncaught — not an
`HTTPException(401, "Unauthorized")` rejection. -/
theorem c2_counterexample :
    verify_token "s" 10 "/api/user/info" (some Token.malformed)
        = .uncaught (.supabaseAuthError "Invalid token") := by
  rfl

/-- C2 amended: on a non-allow-listed path, only the missing-credential
rejection is a 401 `HTTPException`.  `is_token_expired` returns `false` at
every input (an expired token already fails the decode inside it, and the
except branch returns `False`), so the gate's expired-token 401 branch is
unreachable; every `AuthError` cause for a presented token — invalid,
expired, or otherwise undecodable — surfaces when the gate's own
`decode_supabase_token` call raises, and that `SupabaseAuthError`
propagates out of the gate uncaught (a server error), not as a 401. -/
theorem c2_gate_rejection_kinds (secret : String) (now : Nat) (path : String)
    (cred : Option Token) (hp : path ∉ WHITE_LIST) :
    (cred = none → verify_token secret now path cred = .httpException 401 "Unauthorized")
    ∧ (∀ t, is_token_expired secret now t = false)
    ∧ (∀ t e, cred = some t →
        decode_supabase_token secret now t = Except.error e →
        verify_token secret now path cred = .uncaught e ∧ e.isAuthErr = true) := by
  refine ⟨?_, fun t => is_token_expired_false secret now t, ?_⟩
  · intro hc
    subst hc
    simp [verify_token, hp]
  · intro t e hc hdec
    subst hc
    exact ⟨by simp [verify_token, hp, is_token_expired_false, hdec],
           decode_error_isAuthErr secret now t e hdec⟩

/-- Witness for C2 at an expired token (signed with the configured secret,
expiry 3, clock 10) on a non-allow-listed path: the rejection is the
uncaught `SupabaseAuthError`, not a 401. -/
theorem c2_witness :
    verify_token "s" 10 "/x" (some (Token.signed "s" "authenticated" ⟨some 3, none, none⟩))
        = .uncaught (.supabaseAuthError "Invalid token")
    ∧ (SupaErr.supabaseAuthError "Invalid token").isAuthErr = true :=
  (c2_gate_rejection_kinds "s" 10 "/x"
      (some (Token.signed "s" "authenticated" ⟨some 3, none, none⟩)) (by decide)).2.2
    (Token.signed "s" "authenticated" ⟨some 3, none, none⟩)
    (.supabaseAuthError "Invalid token") rfl rfl

/-- C3 counterexample: with an unconfigured (empty) signing secret,
`decode_supabase_token` fails with `SupabaseAuthError` — the auth-error
kind, not the plain `SupabaseError` configuration kind the claim
requires. -/
theorem c3_counterexample :
    decode_supabase_token "" 0 Token.malformed
        = Except.error
            (.supabaseAuthError "SUPABASE_JWT_SECRET must be set in environment variables")
    ∧ decodeErrIsConfig (decode_supabase_token "" 0 Token.malformed) = false
    ∧ decodeErrIsAuth (decode_supabase_token "" 0 Token.malformed) = true := by
  refine ⟨rfl, rfl, rfl⟩

/-- C3 amended: for every token and clock reading, if the signing secret
is unconfigured (empty), `decode` fails fast — but with `AuthError` (the
same `SupabaseAuthError` kind), not a distinct `ConfigurationError`; when
the secret is configured, `decode` fails with `AuthError` whenever the
signature, audience, or structure is invalid. -/
theorem c3_decode_secret_unconfigured (now : Nat) (token : Token) :
    decode_supabase_token "" now token
        = Except.error
            (.supabaseAuthError "SUPABASE_JWT_SECRET must be set in environment variables")
    ∧ ∀ (secret : String) (e : SupaErr), secret ≠ "" →
        decode_supabase_token secret now token = Except.error e → e.isAuthErr = true := by
  constructor
  · simp [decode_supabase_token]
  · intro secret e _ h
    exact decode_error_isAuthErr secret now token e h

/-- Witness for C3 at a malformed token, with the secret empty and with it
configured. -/
theorem c3_witness :
    decode_supabase_token "" 0 Token.malformed
        = Except.error
            (.supabaseAuthError "SUPABASE_JWT_SECRET must be set in environment variables")
    ∧ (SupaErr.supabaseAuthError "Invalid token").isAuthErr = true :=
  ⟨(c3_decode_secret_unconfigured 0 Token.malformed).1,
   (c3_decode_secret_unconfigured 0 Token.malformed).2 "s"
     (.supabaseAuthError "Invalid token") (by decide) rfl⟩

/-- C5: for every token that decodes successfully under the configured
secret, an expiry claim in the future yields `is_expired = false`, an
expiry claim in the past yields `is_expired = true`, and a missing expiry
claim yields `is_expired = false`.  The first conjunct makes the shape of
the past case explicit: because python-jose validates `exp` during the
decode, a successfully decoded token never has an expiry before `now`, so
the past case holds vacuously — there is no such token. -/
theorem c5_expiry_comparison (secret : String) (now : Nat) (token : Token)
    (p : Payload) (h : decode_supabase_token secret now token = Except.ok p) :
    (∀ e, p.exp = some e → now ≤ e)
    ∧ (∀ e, p.exp = some e → now < e →
        is_token_expired secret now token = false)
    ∧ (∀ e, p.exp = some e → e < now →
        is_token_expired secret now token = true)
    ∧ (p.exp = none → is_token_expired secret now token = false) := by
  have hexp := decode_ok_exp secret now token p h
  refine ⟨hexp, ?_, ?_, ?_⟩
  · intro e he hfut
    by_cases h0 : e = 0
    · simp [is_token_expired, h, he, h0]
    · simp [is_token_expired, h, he, h0]
      omega
  · intro e he hpast
    exact absurd (hexp e he) (by omega)
  · intro he
    simp [is_token_expired, h, he]

/-- Witness for C5: under secret `"s"` at time 10, a token with expiry 20
(future) decodes successfully and is reported not expired; one with no
expiry claim is also reported not expired. -/
theorem c5_witness :
    is_token_expired "s" 10 (Token.signed "s" "authenticated" ⟨some 20, none, none⟩)
        = false
    ∧ is_token_expired "s" 10 (Token.signed "s" "authenticated" ⟨none, none, none⟩)
        = false :=
  ⟨(c5_expiry_comparison "s" 10 (Token.signed "s" "authenticated" ⟨some 20, none, none⟩)
      ⟨some 20, none, none⟩ rfl).2.1 20 rfl (by decide),
   (c5_expiry_comparison "s" 10 (Token.signed "s" "authenticated" ⟨none, none, none⟩)
      ⟨none, none, none⟩ rfl).2.2.2 rfl⟩

/-- C7: each cached getter is idempotent — once a call has returned a
client, every later call returns the identical instance with the cache
unchanged; on a first call (nothing cached) with an empty endpoint URL or
API key, `get_supabase_client` fails with the configuration error and
caches nothing, and with both values non-empty it constructs, caches and
returns the client. -/
theorem c7_client_singletons (cfg : Settings) (cache : ClientCache) :
    (∀ c cache1, get_supabase_client cfg cache = (Except.ok c, cache1) →
        get_supabase_client cfg cache1 = (Except.ok c, cache1))
    ∧ (∀ c cache1, get_s3_client cfg cache = (c, cache1) →
        get_s3_client cfg cache1 = (c, cache1))
    ∧ (cache.supabaseClient = none →
        (cfg.supabase_url = "" ∨ cfg.supabase_key = "") →
        get_supabase_client cfg cache
          = (Except.error
              (.supabaseError "SUPABASE_URL and SUPABASE_KEY must be set in environment variables"),
             cache))
    ∧ (cache.supabaseClient = none → cfg.supabase_url ≠ "" → cfg.supabase_key ≠ "" →
        get_supabase_client cfg cache
          = (Except.ok ⟨cfg.supabase_url, cfg.supabase_key, true, true⟩,
             ⟨some ⟨cfg.supabase_url, cfg.supabase_key, true, true⟩, cache.s3Client⟩)) := by
  refine ⟨?_, ?_, ?_, ?_⟩
  · intro c cache1 h
    cases hc : cache.supabaseClient with
    | some c0 =>
      rw [get_supabase_client, hc] at h
      obtain ⟨h1, h2⟩ := Prod.mk.injEq .. ▸ h
      injection h1 with h1
      subst h1
      subst h2
      rw [get_supabase_client, hc]
    | none =>
      rw [get_supabase_client, hc] at h
      by_cases hcfg : cfg.supabase_url = "" ∨ cfg.supabase_key = ""
      · rw [if_pos hcfg] at h
        obtain ⟨h1, _⟩ := Prod.mk.injEq .. ▸ h
        cases h1
      · rw [if_neg hcfg] at h
        obtain ⟨h1, h2⟩ := Prod.mk.injEq .. ▸ h
        injection h1 with h1
        subst h1
        subst h2
        rw [get_supabase_client]
  · intro c cache1 h
    cases hc : cache.s3Client with
    | some c0 =>
      rw [get_s3_client, hc] at h
      obtain ⟨h1, h2⟩ := Prod.mk.injEq .. ▸ h
      subst h1
      subst h2
      rw [get_s3_client, hc]
    | none =>
      rw [get_s3_client, hc] at h
      obtain ⟨h1, h2⟩ := Prod.mk.injEq .. ▸ h
      subst h1
      subst h2
      rw [get_s3_client]
  · intro hc hcfg
    rw [get_supabase_client, hc, if_pos hcfg]
  · intro hc hu hk
    rw [get_supabase_client, hc, if_neg (by simp [hu, hk])]

/-- Witness for C7: a second call returns the instance the first call
constructed and cached, and a first call with an empty URL fails with the
configuration error, caching nothing. -/
theorem c7_witness :
    get_supabase_client ⟨"https://x", "k", ""⟩ ⟨some ⟨"https://x", "k", true, true⟩, none⟩
        = (Except.ok ⟨"https://x", "k", true, true⟩,
           ⟨some ⟨"https://x", "k", true, true⟩, none⟩)
    ∧ get_supabase_client ⟨"", "k", ""⟩ ⟨none, none⟩
        = (Except.error
            (.supabaseError "SUPABASE_URL and SUPABASE_KEY must be set in environment variables"),
           ⟨none, none⟩) :=
  ⟨(c7_client_singletons ⟨"https://x", "k", ""⟩ ⟨none, none⟩).1
      ⟨"https://x", "k", true, true⟩ ⟨some ⟨"https://x", "k", true, true⟩, none⟩ rfl,
   (c7_client_singletons ⟨"", "k", ""⟩ ⟨none, none⟩).2.2.1 rfl (Or.inl rfl)⟩

/-- C8: `check_user_exists` is composed from `select` on the `users`
collection with the single equality filter on `id` and `limit=1`; it
returns `true` exactly when that select returns a non-empty row set, and
it returns `false` (never raises) whenever that select fails with
`SupabaseDBError`, which is the only error kind select produces. -/
theorem c8_check_user_exists (backend : Query → ExecResult) (user_id : String) :
    (check_user_exists backend user_id = Except.ok true ↔
      ∃ rows, select backend "users" "*" [("id", user_id)] none (some 1) none
          = Except.ok rows ∧ rows ≠ [])
    ∧ (∀ e, select backend "users" "*" [("id", user_id)] none (some 1) none
          = Except.error e → check_user_exists backend user_id = Except.ok false) := by
  constructor
  · rw [check_user_exists]
    cases hs : select backend "users" "*" [("id", user_id)] none (some 1) none with
    | ok rows =>
      simp only [hs]
      constructor
      · intro h
        injection h with h1
        refine ⟨rows, rfl, ?_⟩
        intro hnil
        subst hnil
        simp at h1
      · rintro ⟨rows', hr, hne⟩
        injection hr with hr
        subst hr
        have : 0 < rows.length := List.length_pos.mpr hne
        simp [this]
    | error e =>
      cases e with
      | supabaseDBError m =>
        constructor
        · intro h
          injection h with h1
          cases h1
        · rintro ⟨rows', hr, _⟩
          cases hr
      | supabaseError m =>
        constructor
        · intro h
          cases h
        · rintro ⟨rows', hr, _⟩
          cases hr
      | supabaseAuthError m =>
        constructor
        · intro h
          cases h
        · rintro ⟨rows', hr, _⟩
          cases hr
      | supabaseStorageError m =>
        constructor
        · intro h
          cases h
        · rintro ⟨rows', hr, _⟩
          cases hr
  · intro e he
    have hdb := select_error_isDBErr backend "users" "*" [("id", user_id)] none
      (some 1) none e he
    rw [check_user_exists, he]
    cases e with
    | supabaseDBError m => rfl
    | supabaseError m => cases hdb
    | supabaseAuthError m => cases hdb
    | supabaseStorageError m => cases hdb

/-- Witness for C8: against a backend that reports an `APIError`, the
underlying select fails with `SupabaseDBError` and `check_user_exists`
returns `false` rather than raising. -/
theorem c8_witness :
    check_user_exists (fun _ => ExecResult.apiError "boom") "u" = Except.ok false :=
  (c8_check_user_exists (fun _ => ExecResult.apiError "boom") "u").2
    (.supabaseDBError "Failed to select from users") rfl

/-- C9: for every clock reading, random draw and original filename,
`generate_filename` produces eight decimal digits, an underscore, six
decimal digits, an underscore, eight lowercase hexadecimal characters,
followed by exactly the original file extension — which is preserved even
when empty. -/
theorem c9_generate_filename_pattern (now : Timestamp) (r : Nat) (orig : String) :
    ∃ d8 d6 h8 : String,
      generate_filename now r orig
          = d8 ++ "_" ++ d6 ++ "_" ++ h8 ++ pathSuffix orig
      ∧ d8.length = 8 ∧ allDigits d8 = true
      ∧ d6.length = 6 ∧ allDigits d6 = true
      ∧ h8.length = 8 ∧ allLowerHex h8 = true := by
  refine ⟨pad4 now.year ++ pad2 now.month ++ pad2 now.day,
          pad2 now.hour ++ pad2 now.minute ++ pad2 now.second,
          uuid4Prefix8 r, ?_, ?_, ?_, ?_, ?_, ?_, ?_⟩
  · rw [generate_filename, formatTimestamp]
    simp [String.append_assoc]
  · simp [String.length_append, pad4_length, pad2_length]
  · simp [allDigits_append, allDigits_pad4, allDigits_pad2]
  · simp [String.length_append, pad2_length]
  · simp [allDigits_append, allDigits_pad2]
  · exact uuid4Prefix8_length r
  · exact allLowerHex_uuid4Prefix8 r

end Claims
